import Mathlib

/-!
Verification of the immersive-web-sdk GIS core: a shallow embedding over ℝ of
the coordinate-transform engine (coordinate-adapter.ts), the map presenter's
scene-graph and lifecycle operations (map-presenter.ts), and the world's
mode-switch protocol (world.ts), with theorems settling the specification's
claims about them.
-/

namespace IWSDK

noncomputable section

/-- WGS84 ellipsoid semi-major axis in meters (coordinate-adapter.ts `WGS84_A`). -/
def WGS84_A : ℝ := 6378137.0

/-- WGS84 ellipsoid eccentricity squared (coordinate-adapter.ts `WGS84_E2`). -/
def WGS84_E2 : ℝ := 0.00669437999014

/-- Earth-centered-earth-fixed Cartesian coordinates `{x, y, z}`. -/
@[ext] structure ECEF where
  x : ℝ
  y : ℝ
  z : ℝ

/-- Local tangent-plane coordinates `{east, north, up}`. -/
@[ext] structure ENUCoords where
  east : ℝ
  north : ℝ
  up : ℝ

/-- A three.js `Vector3` (scene coordinates). -/
@[ext] structure Vec3 where
  x : ℝ
  y : ℝ
  z : ℝ

/-- Geographic coordinates `{lat, lon, h}` in degrees / meters
(presenter.ts `GeographicCoords`). -/
@[ext] structure GeographicCoords where
  lat : ℝ
  lon : ℝ
  h : ℝ

/-- JavaScript `Math.atan2(y, x)`: the angle of the point `(x, y)`,
in `(-π, π]`, with the usual quadrant corrections. -/
def atan2 (y x : ℝ) : ℝ :=
  if 0 < x then Real.arctan (y / x)
  else if x < 0 then
    if 0 ≤ y then Real.arctan (y / x) + Real.pi
    else Real.arctan (y / x) - Real.pi
  else
    if 0 < y then Real.pi / 2
    else if y < 0 then -(Real.pi / 2)
    else 0

/-- The loaded proj4 module, specialized to the adapter's registered reference
system: `fwd lon lat` is `proj4('EPSG:4326', crsCode, [lon, lat])` and
`inv x y` is `proj4(crsCode, 'EPSG:4326', [x, y])` (returning `[lon, lat]`).
The projection engine itself is an external dependency of the repository
(loaded by `getProj4`), so it enters the model as an injected function pair. -/
structure Proj4 where
  fwd : ℝ → ℝ → ℝ × ℝ
  inv : ℝ → ℝ → ℝ × ℝ

/-- Computed origin with all coordinate representations
(coordinate-adapter.ts `ComputedOrigin`). -/
structure ComputedOrigin where
  lat : ℝ
  lon : ℝ
  h : ℝ
  ecef : ECEF
  crs : ℝ × ℝ

/-- State of a `CoordinateAdapter` (coordinate-adapter.ts).  `crsProjection`
is the mathematical transform denoted by the registered reference-system
definition (the process-wide proj4 registry maps the configured code to
exactly one definition); `proj4` is the lazily loaded module, `none` until
`initialize()` resolves it, exactly as the TS field `proj4` is `null` until
then.  `initialized` mirrors `_initialized`. -/
structure CoordinateAdapter where
  crsProjection : Proj4
  origin : ComputedOrigin
  proj4 : Option Proj4
  initialized : Bool

/-- The `CoordinateAdapter` constructor: stores the configured origin with
zeroed ECEF and CRS representations and no loaded proj4 module. -/
def CoordinateAdapter.new (crsProjection : Proj4) (lat lon h : ℝ) :
    CoordinateAdapter where
  crsProjection := crsProjection
  origin := { lat := lat, lon := lon, h := h, ecef := ⟨0, 0, 0⟩, crs := (0, 0) }
  proj4 := none
  initialized := false

/-- `geodeticToECEF(lat, lon, h)` (coordinate-adapter.ts): closed-form
ellipsoidal formula; `N` is the radius of curvature in the prime vertical. -/
def geodeticToECEF (lat lon h : ℝ) : ECEF :=
  let phi := lat * Real.pi / 180
  let lam := lon * Real.pi / 180
  let sinPhi := Real.sin phi
  let cosPhi := Real.cos phi
  let sinLam := Real.sin lam
  let cosLam := Real.cos lam
  let N := WGS84_A / Real.sqrt (1 - WGS84_E2 * sinPhi * sinPhi)
  { x := (N + h) * cosPhi * cosLam
    y := (N + h) * cosPhi * sinLam
    z := (N * (1 - WGS84_E2) + h) * sinPhi }

/-- `ecefToENU(ecef)` (coordinate-adapter.ts): rotates the ECEF delta from the
stored origin through the local tangent-plane rotation parameterized by the
origin's latitude/longitude. -/
def CoordinateAdapter.ecefToENU (s : CoordinateAdapter) (ecef : ECEF) :
    ENUCoords :=
  let phi := s.origin.lat * Real.pi / 180
  let lam := s.origin.lon * Real.pi / 180
  let dx := ecef.x - s.origin.ecef.x
  let dy := ecef.y - s.origin.ecef.y
  let dz := ecef.z - s.origin.ecef.z
  let sinPhi := Real.sin phi
  let cosPhi := Real.cos phi
  let sinLam := Real.sin lam
  let cosLam := Real.cos lam
  { east := -sinLam * dx + cosLam * dy
    north := -sinPhi * cosLam * dx - sinPhi * sinLam * dy + cosPhi * dz
    up := cosPhi * cosLam * dx + cosPhi * sinLam * dy + sinPhi * dz }

/-- `enuToECEF(enu)` (coordinate-adapter.ts): the transposed rotation applied
to the ENU vector, translated back by the stored origin's ECEF. -/
def CoordinateAdapter.enuToECEF (s : CoordinateAdapter) (enu : ENUCoords) :
    ECEF :=
  let phi := s.origin.lat * Real.pi / 180
  let lam := s.origin.lon * Real.pi / 180
  let sinPhi := Real.sin phi
  let cosPhi := Real.cos phi
  let sinLam := Real.sin lam
  let cosLam := Real.cos lam
  let dx := -sinLam * enu.east - sinPhi * cosLam * enu.north +
      cosPhi * cosLam * enu.up
  let dy := cosLam * enu.east - sinPhi * sinLam * enu.north +
      cosPhi * sinLam * enu.up
  let dz := cosPhi * enu.north + sinPhi * enu.up
  { x := dx + s.origin.ecef.x
    y := dy + s.origin.ecef.y
    z := dz + s.origin.ecef.z }

/-- `ecefToGeodetic(ecef)` (coordinate-adapter.ts): single-pass Bowring
inversion returning latitude/longitude in degrees and height in meters. -/
def ecefToGeodetic (ecef : ECEF) : GeographicCoords :=
  let b := Real.sqrt (WGS84_A * WGS84_A * (1 - WGS84_E2))
  let ep2 := (WGS84_A * WGS84_A - b * b) / (b * b)
  let p := Real.sqrt (ecef.x * ecef.x + ecef.y * ecef.y)
  let th := atan2 (WGS84_A * ecef.z) (b * p)
  let lon := atan2 ecef.y ecef.x
  let lat := atan2 (ecef.z + ep2 * b * Real.sin th ^ 3)
      (p - WGS84_E2 * WGS84_A * Real.cos th ^ 3)
  let sinPhi := Real.sin lat
  let N := WGS84_A / Real.sqrt (1 - WGS84_E2 * sinPhi * sinPhi)
  let h := p / Real.cos lat - N
  { lat := lat * 180 / Real.pi, lon := lon * 180 / Real.pi, h := h }

/-- `geographicToENU(lat, lon, h)` (coordinate-adapter.ts): kernel composition
returning a three.js vector with `x = east`, `y = up`, `z = -north`. -/
def CoordinateAdapter.geographicToENU (s : CoordinateAdapter)
    (lat lon h : ℝ) : Vec3 :=
  let ecef := geodeticToECEF lat lon h
  let enu := s.ecefToENU ecef
  { x := enu.east, y := enu.up, z := -enu.north }

/-- `enuToGeographic(enu)` (coordinate-adapter.ts): undoes the three.js axis
convention and inverts the kernel composition. -/
def CoordinateAdapter.enuToGeographic (s : CoordinateAdapter) (enu : Vec3) :
    GeographicCoords :=
  let enuCoords : ENUCoords := { east := enu.x, north := -enu.z, up := enu.y }
  ecefToGeodetic (s.enuToECEF enuCoords)

/-- The `{x, y, z}` record returned by `enuToCRS`. -/
@[ext] structure CRS3 where
  x : ℝ
  y : ℝ
  z : ℝ

/-- `enuToCRS(enu)` (coordinate-adapter.ts): origin-relative translation only,
`Easting = enu.x + origin.crs.x`, `Northing = -enu.z + origin.crs.y`,
`Height = enu.y`. -/
def CoordinateAdapter.enuToCRS (s : CoordinateAdapter) (enu : Vec3) : CRS3 :=
  { x := enu.x + s.origin.crs.1
    y := -enu.z + s.origin.crs.2
    z := enu.y }

/-- `crsToENU(x, y, z)` (coordinate-adapter.ts). -/
def CoordinateAdapter.crsToENU (s : CoordinateAdapter) (x y z : ℝ) : Vec3 :=
  { x := x - s.origin.crs.1
    y := z
    z := -(y - s.origin.crs.2) }

/-- `geographicToCRS(lat, lon)` (coordinate-adapter.ts): throws
`CoordinateAdapter not initialized` when the proj4 module is not loaded,
otherwise projects `[lon, lat]` into the registered reference system. -/
def CoordinateAdapter.geographicToCRS (s : CoordinateAdapter) (lat lon : ℝ) :
    Except String (ℝ × ℝ) :=
  match s.proj4 with
  | none => .error "CoordinateAdapter not initialized"
  | some p => .ok (p.fwd lon lat)

/-- The `{lat, lon}` record returned by `crsToGeographic`. -/
@[ext] structure LatLon where
  lat : ℝ
  lon : ℝ

/-- `crsToGeographic(x, y)` (coordinate-adapter.ts): throws when the proj4
module is not loaded, otherwise unprojects and returns `{lat, lon}`. -/
def CoordinateAdapter.crsToGeographic (s : CoordinateAdapter) (x y : ℝ) :
    Except String LatLon :=
  match s.proj4 with
  | none => .error "CoordinateAdapter not initialized"
  | some p => .ok { lat := (p.inv x y).2, lon := (p.inv x y).1 }

/-- `initialize()` (coordinate-adapter.ts): loads proj4 (here: the transform
the registered definition denotes), computes the origin's ECEF and CRS
representations and marks the adapter initialized; a second call returns the
state unchanged. -/
def CoordinateAdapter.initializeAdapter (s : CoordinateAdapter) : CoordinateAdapter :=
  if s.initialized then s
  else
    { s with
      proj4 := some s.crsProjection
      origin :=
        { s.origin with
          ecef := geodeticToECEF s.origin.lat s.origin.lon s.origin.h
          crs := s.crsProjection.fwd s.origin.lon s.origin.lat }
      initialized := true }

/-- `setOrigin(lat, lon, h)` (coordinate-adapter.ts): always rewrites the
geographic fields and the ECEF representation; the CRS representation is
recomputed only under `if (this.proj4)`. -/
def CoordinateAdapter.setOrigin (s : CoordinateAdapter) (lat lon h : ℝ) :
    CoordinateAdapter :=
  let origin1 : ComputedOrigin :=
    { lat := lat, lon := lon, h := h
      ecef := geodeticToECEF lat lon h
      crs := s.origin.crs }
  match s.proj4 with
  | some p => { s with origin := { origin1 with crs := p.fwd lon lat } }
  | none => { s with origin := origin1 }

/-- A node of the three.js display tree, restricted to what the presenter
layer distinguishes: an entity-owned object (a display handle, carrying its
`uuid` and child objects) or an `ENUGeometryWrapper` group (map-presenter.ts):
the wrapper carries `rotation.x`, `position` and the single wrapped child it
was constructed around.  Renderer-internal nodes (map tiles) are outside the
entity model (spec §1 treats renderer internals as external collaborators). -/
inductive SceneObject where
  | obj (uuid : ℕ) (children : List SceneObject)
  | wrapper (rotX : ℝ) (pos : ℝ × ℝ × ℝ) (child : SceneObject)

/-- The record view of an `ENUGeometryWrapper` instance (map-presenter.ts):
`wrapper.rotation.x`, `wrapper.position` and the `innerObject` reference.
The same group also appears as a `SceneObject.wrapper` node in the content
root; after `MapPresenter.updateOrigin` the registry view below carries the
group's current position. -/
structure ENUGeometryWrapper where
  rotX : ℝ
  pos : ℝ × ℝ × ℝ
  innerObject : SceneObject

/-- The `ENUGeometryWrapper` constructor: rotates `+π/2` about X (Y-up ENU to
Z-up map), adds the object as the single child, and positions the group at
`(originCRS.x, originCRS.y, 0)`. -/
def ENUGeometryWrapper.new (object3D : SceneObject) (originCRS : ℝ × ℝ) :
    ENUGeometryWrapper where
  rotX := Real.pi / 2
  pos := (originCRS.1, originCRS.2, 0)
  innerObject := object3D

/-- `ENUGeometryWrapper.updateOrigin(originCRS)` (map-presenter.ts): resets
the group position to `(originCRS.x, originCRS.y, 0)`; nothing else changes. -/
def ENUGeometryWrapper.updateOrigin (w : ENUGeometryWrapper)
    (originCRS : ℝ × ℝ) : ENUGeometryWrapper :=
  { w with pos := (originCRS.1, originCRS.2, 0) }

/-- The scene node created for a wrapper record. -/
def ENUGeometryWrapper.node (w : ENUGeometryWrapper) : SceneObject :=
  .wrapper w.rotX w.pos w.innerObject

/-- The world point a wrapper maps a wrapped-content local point to:
rotation about X by `rotX` followed by the translation to `pos`. -/
def ENUGeometryWrapper.worldPoint (w : ENUGeometryWrapper) (q : ℝ × ℝ × ℝ) :
    ℝ × ℝ × ℝ :=
  (q.1 + w.pos.1,
   Real.cos w.rotX * q.2.1 - Real.sin w.rotX * q.2.2 + w.pos.2.1,
   Real.sin w.rotX * q.2.1 + Real.cos w.rotX * q.2.2 + w.pos.2.2)

/-- The `options` argument of `addObject` (`{ isENU?: boolean }`); `none` in
the inner field models an absent property. -/
structure AddOptions where
  isENU : Option Bool

/-- `options?.isENU !== false`: true when `options` is omitted, when `isENU`
is absent, and when it is any value other than exactly `false`. -/
def effectiveIsENU (options : Option AddOptions) : Bool :=
  match options with
  | none => true
  | some o => o.isENU ≠ some false

/-- The slice of `MapPresenter` state driving `addObject` / `updateOrigin`:
the optional coordinate adapter (`null` when no origin was configured), the
content root's entity-owned children in attachment order, and the
`_enuWrappers` registry in insertion order. -/
structure MapPresenterModel where
  coordAdapter : Option CoordinateAdapter
  contentRoot : List SceneObject
  enuWrappers : List ENUGeometryWrapper

/-- `MapPresenter.addObject(object3D, options)` (map-presenter.ts): with
`isENU` defaulted to true and a configured coordinate adapter, a fresh
`ENUGeometryWrapper` is created at the current origin's CRS offset, recorded
in `_enuWrappers`, and the wrapper group — not the object — is added to the
content root; otherwise the object itself is added directly. -/
def MapPresenterModel.addObject (p : MapPresenterModel) (object3D : SceneObject)
    (options : Option AddOptions) : MapPresenterModel :=
  match effectiveIsENU options, p.coordAdapter with
  | true, some a =>
      let w := ENUGeometryWrapper.new object3D a.origin.crs
      { p with
        enuWrappers := p.enuWrappers ++ [w]
        contentRoot := p.contentRoot ++ [w.node] }
  | _, _ => { p with contentRoot := p.contentRoot ++ [object3D] }

/-- `MapPresenter.updateOrigin(lat, lon, h)` (map-presenter.ts): when a
coordinate adapter is present, rebases it with `setOrigin` and repositions
every live wrapper to the new origin's CRS offset; otherwise does nothing. -/
def MapPresenterModel.updateOrigin (p : MapPresenterModel) (lat lon h : ℝ) :
    MapPresenterModel :=
  match p.coordAdapter with
  | none => p
  | some a =>
      let a2 := a.setOrigin lat lon h
      { p with
        coordAdapter := some a2
        enuWrappers := p.enuWrappers.map (·.updateOrigin a2.origin.crs) }

/-- Strips the (possibly nested) offset wrappers from an attached node,
recovering the display handle underneath. -/
def stripWrappers : SceneObject → SceneObject
  | .wrapper _ _ c => stripWrappers c
  | .obj u cs => .obj u cs

/-- The display handles attached under a content root, in order, each read
through its offset wrapping. -/
def attachedHandles (root : List SceneObject) : List SceneObject :=
  root.map stripWrappers

/-- The presenter back-end kinds the world can switch between. -/
inductive PresenterKind where
  | map
  | xr

/-- `XRPresenter.addObject(object3D, _options)` (xr-presenter.ts): in XR
mode the scene coordinates are already ENU, so the object is added directly
to the content root and the `isENU` option is ignored (the parameter is
named `_options` and unused). -/
def xrAddObject (root : List SceneObject) (object3D : SceneObject) :
    List SceneObject :=
  root ++ [object3D]

/-- `World.switchMode(mode, options)` (world.ts), reduced to its content-root
effect: drain the current content root's children in order, construct the new
presenter (fresh content root; for the map kind, the adapter built from the
merged configuration), then re-add every collected child with
`addObject(obj, { isENU: true })`. -/
def switchModeRoot (dest : PresenterKind)
    (destAdapter : Option CoordinateAdapter)
    (currentRoot : List SceneObject) : List SceneObject :=
  let objects := currentRoot
  match dest with
  | .xr => objects.foldl xrAddObject []
  | .map =>
      (objects.foldl
        (fun (p : MapPresenterModel) obj =>
          p.addObject obj (some { isENU := some true }))
        { coordAdapter := destAdapter, contentRoot := [], enuWrappers := [] }
      ).contentRoot

/-- Presenter lifecycle states (presenter.ts `PresenterState`). -/
inductive PresenterState where
  | Uninitialized
  | Ready
  | Running
  | Paused
  | Disposed
deriving DecidableEq

/-- `MapPresenter.start(loop)` (map-presenter.ts): throws
`MapPresenter not ready to start` unless the state is Ready — the throw
happens before any mutation, so on error the state is unchanged — and
otherwise transitions to Running. -/
def startTransition (s : PresenterState) : Except String PresenterState :=
  if s ≠ PresenterState.Ready then .error "MapPresenter not ready to start"
  else .ok PresenterState.Running

/-- `MapPresenter.stop()` (map-presenter.ts): unconditionally returns the
presenter to Ready. -/
def stopTransition (_ : PresenterState) : Except String PresenterState :=
  .ok PresenterState.Ready

/-- `MapPresenter.pause()` (map-presenter.ts): no state guard at all — it
cancels the frame loop and sets the state to Paused from any source state. -/
def pauseTransition (_ : PresenterState) : Except String PresenterState :=
  .ok PresenterState.Paused

/-- `MapPresenter.resume()` (map-presenter.ts): acts only from Paused; from
any other state it silently leaves the state unchanged (no error). -/
def resumeTransition (s : PresenterState) : Except String PresenterState :=
  if s = PresenterState.Paused then .ok PresenterState.Running else .ok s

/-- `MapPresenter.dispose()` (map-presenter.ts): tears resources down and
sets Disposed from any source state. -/
def disposeTransition (_ : PresenterState) : Except String PresenterState :=
  .ok PresenterState.Disposed

/-- `MapPresenter.initialize(container, config)` (map-presenter.ts), success
path of its state effect: from a non-Uninitialized state it warns and returns
with the state unchanged; from Uninitialized it ends at Ready.  (Missing
container/CRS/extent throw before any state mutation.) -/
def initializeTransition (s : PresenterState) : Except String PresenterState :=
  if s ≠ PresenterState.Uninitialized then .ok s
  else .ok PresenterState.Ready

/-- The extent record handed to `_createMap` (`{minX, maxX, minY, maxY}`). -/
@[ext] structure Extent4 where
  minX : ℝ
  maxX : ℝ
  minY : ℝ
  maxY : ℝ

/-- The geographic-coordinates heuristic of `MapPresenter._createMap`:
`Math.abs(minX) < 180 && Math.abs(maxX) < 180 && Math.abs(minY) < 90 &&
Math.abs(maxY) < 90`. -/
def isGeographicExtent (e : Extent4) : Prop :=
  |e.minX| < 180 ∧ |e.maxX| < 180 ∧ |e.minY| < 90 ∧ |e.maxY| < 90

instance (e : Extent4) : Decidable (isGeographicExtent e) := by
  unfold isGeographicExtent; infer_instance

/-- The extent-normalization step of `MapPresenter._createMap`
(map-presenter.ts): when the extent looks geographic and a coordinate adapter
exists, the southwest corner `(minY, minX)` and northeast corner
`(maxY, maxX)` are converted with `geographicToCRS` (whose pre-initialization
throw propagates); otherwise the extent is used unchanged. -/
def createMapExtent (coordAdapter : Option CoordinateAdapter) (e : Extent4) :
    Except String Extent4 :=
  match coordAdapter with
  | none => .ok e
  | some a =>
      if isGeographicExtent e then do
        let sw ← a.geographicToCRS e.minY e.minX
        let ne ← a.geographicToCRS e.maxY e.maxX
        .ok { minX := sw.1, maxX := ne.1, minY := sw.2, maxY := ne.2 }
      else .ok e

/-- A concrete injected projection for witnesses/counterexamples: the
identity plate-carrée pair (a degenerate but legal registered definition). -/
def idProj : Proj4 where
  fwd := fun lon lat => (lon, lat)
  inv := fun x y => (x, y)

/-- A concrete injected metric projection for witnesses/counterexamples:
100 km per degree in both axes, with its exact inverse. -/
def scaleProj : Proj4 where
  fwd := fun lon lat => (100000 * lon, 100000 * lat)
  inv := fun x y => (x / 100000, y / 100000)

end

/-- Claim C8: for every ENU vector `v` and configured origin, `enuToCRS`
applies an origin-relative translation only — `Easting = v.x + origin.crs.x`,
`Northing = -v.z + origin.crs.y`, `height = v.y` — and `crsToENU` is its
exact inverse, so `crsToENU (enuToCRS v)` returns `v` exactly. -/
theorem enuToCRS_translation_and_exact_inverse (s : CoordinateAdapter)
    (v : Vec3) :
    (s.enuToCRS v).x = v.x + s.origin.crs.1 ∧
    (s.enuToCRS v).y = -v.z + s.origin.crs.2 ∧
    (s.enuToCRS v).z = v.y ∧
    s.crsToENU (s.enuToCRS v).x (s.enuToCRS v).y (s.enuToCRS v).z = v := by
  refine ⟨rfl, rfl, rfl, ?_⟩
  unfold CoordinateAdapter.crsToENU CoordinateAdapter.enuToCRS
  ext <;> ring

/-- Claim C6 counterexample: `pause()` invoked from Uninitialized — an
invalid source state for pause — raises no error and moves the state to
Paused, so the claim that every lifecycle method guards its source state
fails on the code. -/
theorem pause_from_uninitialized_no_state_error :
    pauseTransition PresenterState.Uninitialized =
      Except.ok PresenterState.Paused := rfl

/-- Claim C6 (amended): only `start()` guards its source state — from any
state other than Ready it raises a state error and (the throw preceding any
mutation) leaves the state unchanged; `pause()`, `stop()` and `dispose()`
transition unconditionally from any state, `resume()` from a non-Paused
state silently leaves the state unchanged, and `initialize()` from a
non-Uninitialized state warns and leaves the state unchanged. -/
theorem lifecycle_state_guards :
    (∀ s, s ≠ PresenterState.Ready →
      startTransition s = .error "MapPresenter not ready to start") ∧
    startTransition PresenterState.Ready = .ok PresenterState.Running ∧
    (∀ s, stopTransition s = .ok PresenterState.Ready) ∧
    (∀ s, pauseTransition s = .ok PresenterState.Paused) ∧
    (∀ s, s ≠ PresenterState.Paused → resumeTransition s = .ok s) ∧
    resumeTransition PresenterState.Paused = .ok PresenterState.Running ∧
    (∀ s, disposeTransition s = .ok PresenterState.Disposed) ∧
    (∀ s, s ≠ PresenterState.Uninitialized → initializeTransition s = .ok s) := by
  refine ⟨fun s hs => ?_, rfl, fun s => rfl, fun s => rfl,
    fun s hs => ?_, rfl, fun s => rfl, fun s hs => ?_⟩
  · simp [startTransition, hs]
  · simp [resumeTransition, hs]
  · simp [initializeTransition, hs]

/-- Witness for the amended C6 theorem at concrete states: `start()` from
Paused errors, `resume()` from Ready stays Ready, `initialize()` from
Disposed stays Disposed. -/
theorem lifecycle_state_guards_witness :
    startTransition PresenterState.Paused =
      .error "MapPresenter not ready to start" ∧
    resumeTransition PresenterState.Ready = .ok PresenterState.Ready ∧
    initializeTransition PresenterState.Disposed =
      .ok PresenterState.Disposed :=
  ⟨lifecycle_state_guards.1 PresenterState.Paused (by decide),
   lifecycle_state_guards.2.2.2.2.1 PresenterState.Ready (by decide),
   lifecycle_state_guards.2.2.2.2.2.2.2 PresenterState.Disposed (by decide)⟩

/-- Claim C10: with a configured coordinate adapter, `addObject` wraps the
object in a fresh offset-wrapper group — positioned at the origin's
projected-CRS offset, rotated `+π/2` about X — and attaches the wrapper, not
the object, to the content root, whenever `options` is omitted or
`options.isENU` is anything but exactly `false`; the object is attached
directly exactly when `options.isENU === false` or no adapter is
configured. -/
theorem addObject_wrapping (p : MapPresenterModel) (obj : SceneObject)
    (options : Option AddOptions) :
    (∀ a, p.coordAdapter = some a → effectiveIsENU options = true →
      (p.addObject obj options).contentRoot =
        p.contentRoot ++
          [SceneObject.wrapper (Real.pi / 2)
            (a.origin.crs.1, a.origin.crs.2, 0) obj] ∧
      (p.addObject obj options).enuWrappers =
        p.enuWrappers ++ [ENUGeometryWrapper.new obj a.origin.crs]) ∧
    (effectiveIsENU options = false ∨ p.coordAdapter = none →
      (p.addObject obj options).contentRoot = p.contentRoot ++ [obj] ∧
      (p.addObject obj options).enuWrappers = p.enuWrappers) := by
  constructor
  · intro a ha hE
    unfold MapPresenterModel.addObject
    rw [hE, ha]
    exact ⟨rfl, rfl⟩
  · intro hcase
    unfold MapPresenterModel.addObject
    rcases hcase with hE | hca
    · rw [hE]; exact ⟨rfl, rfl⟩
    · rw [hca]; cases effectiveIsENU options <;> exact ⟨rfl, rfl⟩

/-- Witness for `addObject_wrapping` at concrete inputs: an adapter-backed
presenter with omitted options wraps, and the same presenter with
`{ isENU: false }` attaches directly. -/
theorem addObject_wrapping_witness :
    ((MapPresenterModel.mk (some (CoordinateAdapter.new idProj 0 0 0)) [] []
      ).addObject (SceneObject.obj 1 []) none).contentRoot =
      [SceneObject.wrapper (Real.pi / 2) (0, 0, 0) (SceneObject.obj 1 [])] ∧
    ((MapPresenterModel.mk (some (CoordinateAdapter.new idProj 0 0 0)) [] []
      ).addObject (SceneObject.obj 1 []) (some ⟨some false⟩)).contentRoot =
      [SceneObject.obj 1 []] := by
  constructor
  · have h := (addObject_wrapping
      (MapPresenterModel.mk (some (CoordinateAdapter.new idProj 0 0 0)) [] [])
      (SceneObject.obj 1 []) none).1
      (CoordinateAdapter.new idProj 0 0 0) rfl rfl
    simpa [CoordinateAdapter.new] using h.1
  · have h := (addObject_wrapping
      (MapPresenterModel.mk (some (CoordinateAdapter.new idProj 0 0 0)) [] [])
      (SceneObject.obj 1 []) (some ⟨some false⟩)).2 (Or.inl rfl)
    exact h.1

lemma WGS84_A_pos : (0 : ℝ) < WGS84_A := by unfold WGS84_A; norm_num

lemma geodeticToECEF_zero : geodeticToECEF 0 0 0 = ⟨WGS84_A, 0, 0⟩ := by
  unfold geodeticToECEF
  ext <;> simp [Real.sqrt_one]

lemma geographicToENU_new_zero :
    (CoordinateAdapter.new idProj 0 0 0).geographicToENU 0 0 0 =
      ⟨0, WGS84_A, 0⟩ := by
  unfold CoordinateAdapter.geographicToENU
  rw [geodeticToECEF_zero]
  unfold CoordinateAdapter.ecefToENU CoordinateAdapter.new
  ext <;> simp

/-- Claim C7 counterexample: on a freshly constructed (uninitialized)
adapter, `geographicToENU` does not raise — it computes against the
constructor's zeroed origin ECEF and returns the silently wrong vector
`(0, 6378137, 0)` for the point equal to the configured origin, instead of
failing fast. -/
theorem geographicToENU_pre_init_counterexample :
    (CoordinateAdapter.new idProj 0 0 0).proj4 = none ∧
    (CoordinateAdapter.new idProj 0 0 0).geographicToENU 0 0 0 =
      ⟨0, WGS84_A, 0⟩ ∧
    WGS84_A = 6378137 :=
  ⟨rfl, geographicToENU_new_zero, by unfold WGS84_A; norm_num⟩

/-- Claim C7 (amended): before initialization only `geographicToCRS` and
`crsToGeographic` fail fast with `CoordinateAdapter not initialized`;
`geographicToENU` and `enuToGeographic` have no initialization check at all —
they always complete, computing through the stored (possibly stale)
origin. -/
theorem conversions_pre_initialization (s : CoordinateAdapter)
    (lat lon h x y : ℝ) (v : Vec3) :
    (s.proj4 = none →
      s.geographicToCRS lat lon =
        .error "CoordinateAdapter not initialized" ∧
      s.crsToGeographic x y =
        .error "CoordinateAdapter not initialized") ∧
    s.geographicToENU lat lon h =
      { x := (s.ecefToENU (geodeticToECEF lat lon h)).east
        y := (s.ecefToENU (geodeticToECEF lat lon h)).up
        z := -(s.ecefToENU (geodeticToECEF lat lon h)).north } ∧
    s.enuToGeographic v =
      ecefToGeodetic (s.enuToECEF { east := v.x, north := -v.z, up := v.y }) := by
  refine ⟨fun hP => ?_, rfl, rfl⟩
  unfold CoordinateAdapter.geographicToCRS CoordinateAdapter.crsToGeographic
  rw [hP]
  exact ⟨rfl, rfl⟩

/-- Witness for the amended C7 theorem on a freshly constructed adapter. -/
theorem conversions_pre_initialization_witness :
    (CoordinateAdapter.new idProj 0 0 0).geographicToCRS 1 2 =
      .error "CoordinateAdapter not initialized" ∧
    (CoordinateAdapter.new idProj 0 0 0).crsToGeographic 3 4 =
      .error "CoordinateAdapter not initialized" :=
  ⟨((conversions_pre_initialization (CoordinateAdapter.new idProj 0 0 0)
      1 2 0 3 4 ⟨0, 0, 0⟩).1 rfl).1,
   ((conversions_pre_initialization (CoordinateAdapter.new idProj 0 0 0)
      1 2 0 3 4 ⟨0, 0, 0⟩).1 rfl).2⟩

/-- Claim C9 counterexample: `_createMap` converts a geographic-looking
extent only under `isGeographic && this._coordAdapter`; when no coordinate
adapter is configured (`config.origin` absent — a reachable initialization
state), the extent `{minX:-1, maxX:1, minY:50, maxY:52}` satisfies the
geographic-range test yet is passed through to the map unchanged, not
converted via `geographicToCRS`. -/
theorem extent_without_adapter_counterexample :
    createMapExtent none ⟨-1, 1, 50, 52⟩ = .ok ⟨-1, 1, 50, 52⟩ ∧
    isGeographicExtent ⟨-1, 1, 50, 52⟩ := by
  refine ⟨rfl, ?_⟩
  unfold isGeographicExtent
  norm_num [abs_lt]

/-- Claim C9 (amended): when a coordinate adapter is configured and
initialized, an extent whose four bounds satisfy the geographic-range test is
converted corner-wise via `geographicToCRS` (southwest `(minY, minX)`,
northeast `(maxY, maxX)`) before the map is constructed; an extent failing
the range test — or any extent when no adapter is configured — is passed
through unchanged. -/
theorem createMapExtent_normalization (e : Extent4) (a : CoordinateAdapter)
    (P : Proj4) :
    (a.proj4 = some P → isGeographicExtent e →
      createMapExtent (some a) e =
        .ok { minX := (P.fwd e.minX e.minY).1, maxX := (P.fwd e.maxX e.maxY).1
              minY := (P.fwd e.minX e.minY).2, maxY := (P.fwd e.maxX e.maxY).2 }) ∧
    (¬ isGeographicExtent e → ∀ ca, createMapExtent ca e = .ok e) ∧
    createMapExtent none e = .ok e := by
  refine ⟨fun hP hgeo => ?_, fun hgeo ca => ?_, rfl⟩
  · simp only [createMapExtent, CoordinateAdapter.geographicToCRS, hP,
      if_pos hgeo]
    rfl
  · cases ca with
    | none => rfl
    | some a2 => simp only [createMapExtent, if_neg hgeo]

/-- Witness for the amended C9 theorem: the spec's geographic extent
`{-1, 1, 50, 52}` is converted corner-wise under an initialized adapter, and
a projected UTM-range extent `{400000, 420000, 5600000, 5620000}` passes
through unchanged. -/
theorem createMapExtent_normalization_witness :
    createMapExtent (some ((CoordinateAdapter.new scaleProj 0 0 0).initializeAdapter))
        ⟨-1, 1, 50, 52⟩ =
      .ok { minX := (scaleProj.fwd (-1) 50).1, maxX := (scaleProj.fwd 1 52).1
            minY := (scaleProj.fwd (-1) 50).2, maxY := (scaleProj.fwd 1 52).2 } ∧
    createMapExtent (some ((CoordinateAdapter.new scaleProj 0 0 0).initializeAdapter))
        ⟨400000, 420000, 5600000, 5620000⟩ =
      .ok ⟨400000, 420000, 5600000, 5620000⟩ := by
  constructor
  · exact (createMapExtent_normalization ⟨-1, 1, 50, 52⟩
      ((CoordinateAdapter.new scaleProj 0 0 0).initializeAdapter) scaleProj).1
      (by simp [CoordinateAdapter.initializeAdapter, CoordinateAdapter.new])
      (by unfold isGeographicExtent; norm_num [abs_lt])
  · exact (createMapExtent_normalization ⟨400000, 420000, 5600000, 5620000⟩
      ((CoordinateAdapter.new scaleProj 0 0 0).initializeAdapter) scaleProj).2.1
      (by unfold isGeographicExtent; norm_num [abs_lt]) _

/-- The node `addObject(obj, { isENU: true })` attaches for a presenter with
the given adapter slot: the offset wrapper around `obj` when an adapter is
present, `obj` itself otherwise. -/
noncomputable def mapAddedNode (ca : Option CoordinateAdapter)
    (obj : SceneObject) : SceneObject :=
  match ca with
  | some a =>
      .wrapper (Real.pi / 2) (a.origin.crs.1, a.origin.crs.2, 0) obj
  | none => obj

lemma addObject_isENU_true (p : MapPresenterModel) (obj : SceneObject) :
    (p.addObject obj (some ⟨some true⟩)).contentRoot =
      p.contentRoot ++ [mapAddedNode p.coordAdapter obj] ∧
    (p.addObject obj (some ⟨some true⟩)).coordAdapter = p.coordAdapter := by
  unfold MapPresenterModel.addObject mapAddedNode effectiveIsENU
  cases p.coordAdapter <;>
    simp [ENUGeometryWrapper.node, ENUGeometryWrapper.new]

lemma foldl_xrAddObject (objs init : List SceneObject) :
    objs.foldl xrAddObject init = init ++ objs := by
  induction objs generalizing init with
  | nil => simp
  | cons o os ih => simp [xrAddObject, ih]

lemma foldl_mapAddObject (objs : List SceneObject) (p : MapPresenterModel) :
    (objs.foldl
        (fun (q : MapPresenterModel) obj =>
          q.addObject obj (some { isENU := some true })) p).contentRoot =
      p.contentRoot ++ objs.map (mapAddedNode p.coordAdapter) := by
  induction objs generalizing p with
  | nil => simp
  | cons o os ih =>
    rw [List.foldl_cons, ih]
    rw [(addObject_isENU_true p o).1, (addObject_isENU_true p o).2]
    simp

lemma stripWrappers_mapAddedNode (ca : Option CoordinateAdapter)
    (obj : SceneObject) :
    stripWrappers (mapAddedNode ca obj) = stripWrappers obj := by
  cases ca with
  | none => rfl
  | some a => rfl

/-- Claim C2: switching away and back (map↔immersive in either order) leaves
exactly the same display handles attached under the new content root, in
order — none duplicated, none missing — with only their parent and their
offset wrapping changed. -/
theorem switchMode_roundtrip_preserves_handles (objs : List SceneObject)
    (a1 a2 : Option CoordinateAdapter) :
    attachedHandles
        (switchModeRoot .map a2 (switchModeRoot .xr a1 objs)) =
      attachedHandles objs ∧
    attachedHandles
        (switchModeRoot .xr a2 (switchModeRoot .map a1 objs)) =
      attachedHandles objs ∧
    (switchModeRoot .map a2 (switchModeRoot .xr a1 objs)).length =
      objs.length ∧
    (switchModeRoot .xr a2 (switchModeRoot .map a1 objs)).length =
      objs.length := by
  have hxr : ∀ os, switchModeRoot .xr a2 os = os := fun os => by
    show List.foldl xrAddObject [] os = os
    rw [foldl_xrAddObject]; simp
  have hxr1 : ∀ os, switchModeRoot .xr a1 os = os := fun os => by
    show List.foldl xrAddObject [] os = os
    rw [foldl_xrAddObject]; simp
  have hmap : ∀ (ca : Option CoordinateAdapter) os,
      switchModeRoot .map ca os = os.map (mapAddedNode ca) := fun ca os => by
    show (List.foldl
        (fun (p : MapPresenterModel) obj =>
          p.addObject obj (some { isENU := some true }))
        { coordAdapter := ca, contentRoot := [], enuWrappers := [] }
        os).contentRoot = os.map (mapAddedNode ca)
    rw [foldl_mapAddObject]; simp
  have hstrip : ∀ (ca : Option CoordinateAdapter) os,
      attachedHandles (os.map (mapAddedNode ca)) = attachedHandles os := by
    intro ca os
    unfold attachedHandles
    rw [List.map_map]
    exact List.map_congr_left fun o _ => stripWrappers_mapAddedNode ca o
  refine ⟨?_, ?_, ?_, ?_⟩
  · rw [hxr1, hmap, hstrip]
  · rw [hmap, hxr, hstrip]
  · rw [hxr1, hmap, List.length_map]
  · rw [hmap, hxr, List.length_map]

lemma enuToECEF_ecefToENU (s : CoordinateAdapter) (X : ECEF) :
    s.enuToECEF (s.ecefToENU X) = X := by
  obtain ⟨Xx, Xy, Xz⟩ := X
  have hphi := Real.sin_sq_add_cos_sq (s.origin.lat * Real.pi / 180)
  have hlam := Real.sin_sq_add_cos_sq (s.origin.lon * Real.pi / 180)
  simp only [CoordinateAdapter.enuToECEF, CoordinateAdapter.ecefToENU,
    ECEF.mk.injEq]
  set sp := Real.sin (s.origin.lat * Real.pi / 180) with hsp
  set cp := Real.cos (s.origin.lat * Real.pi / 180) with hcp
  set sl := Real.sin (s.origin.lon * Real.pi / 180) with hsl
  set cl := Real.cos (s.origin.lon * Real.pi / 180) with hcl
  refine ⟨?_, ?_, ?_⟩
  · linear_combination
      ((Xx - s.origin.ecef.x) * cl ^ 2 + (Xy - s.origin.ecef.y) * sl * cl) *
        hphi + (Xx - s.origin.ecef.x) * hlam
  · linear_combination
      ((Xy - s.origin.ecef.y) * sl ^ 2 + (Xx - s.origin.ecef.x) * sl * cl) *
        hphi + (Xy - s.origin.ecef.y) * hlam
  · linear_combination (Xz - s.origin.ecef.z) * hphi

lemma adapter_roundtrip_eq_kernel (s : CoordinateAdapter) (lat lon h : ℝ) :
    s.enuToGeographic (s.geographicToENU lat lon h) =
      ecefToGeodetic (geodeticToECEF lat lon h) := by
  unfold CoordinateAdapter.enuToGeographic CoordinateAdapter.geographicToENU
  simp only [neg_neg]
  congr 1
  exact enuToECEF_ecefToENU s (geodeticToECEF lat lon h)

lemma atan2_zero_of_pos {x : ℝ} (hx : 0 < x) : atan2 0 x = 0 := by
  unfold atan2
  rw [if_pos hx, zero_div, Real.arctan_zero]

lemma ecefToGeodetic_A : ecefToGeodetic ⟨WGS84_A, 0, 0⟩ = ⟨0, 0, 0⟩ := by
  have hA := WGS84_A_pos
  have hb : 0 < Real.sqrt (WGS84_A * WGS84_A * (1 - WGS84_E2)) := by
    apply Real.sqrt_pos.mpr
    unfold WGS84_A WGS84_E2
    norm_num
  have hp : Real.sqrt (WGS84_A * WGS84_A + 0 * 0) = WGS84_A := by
    rw [mul_zero, add_zero, Real.sqrt_mul_self hA.le]
  have hth : atan2 (WGS84_A * 0)
      (Real.sqrt (WGS84_A * WGS84_A * (1 - WGS84_E2)) * WGS84_A) = 0 := by
    rw [mul_zero]
    exact atan2_zero_of_pos (mul_pos hb hA)
  have hden : (0 : ℝ) < WGS84_A - WGS84_E2 * WGS84_A := by
    unfold WGS84_A WGS84_E2
    norm_num
  simp only [ecefToGeodetic]
  rw [hp, hth]
  simp only [Real.sin_zero, Real.cos_zero, mul_zero, add_zero, zero_add,
    one_pow, mul_one]
  norm_num
  rw [atan2_zero_of_pos hden]
  simp [Real.sqrt_one, atan2_zero_of_pos hA]

lemma kernel_roundtrip_zero :
    ecefToGeodetic (geodeticToECEF 0 0 0) = ⟨0, 0, 0⟩ := by
  rw [geodeticToECEF_zero, ecefToGeodetic_A]

/-- Componentwise closeness of a geographic result to a target point within
the spec's tolerances: 1e-7 degrees in latitude and longitude, 1e-3 meters
in height. -/
def closeGeo (g : GeographicCoords) (lat lon h : ℝ) : Prop :=
  |g.lat - lat| ≤ 0.0000001 ∧ |g.lon - lon| ≤ 0.0000001 ∧ |g.h - h| ≤ 0.001

/-- Claim C5: for a fixed geographic point,
`enuToGeographic (geographicToENU B)` is the same for every configured
origin — the adapter round trip collapses exactly (over ℝ) to the
origin-free kernel round trip `ecefToGeodetic ∘ geodeticToECEF` — so
whenever the kernel round trip is within the spec tolerance of `B`, the
adapter round trip is too, regardless of which origin was chosen. -/
theorem enu_roundtrip_origin_invariance (s s2 : CoordinateAdapter)
    (lat lon h : ℝ) :
    s.enuToGeographic (s.geographicToENU lat lon h) =
      s2.enuToGeographic (s2.geographicToENU lat lon h) ∧
    s.enuToGeographic (s.geographicToENU lat lon h) =
      ecefToGeodetic (geodeticToECEF lat lon h) ∧
    (closeGeo (ecefToGeodetic (geodeticToECEF lat lon h)) lat lon h →
      closeGeo (s.enuToGeographic (s.geographicToENU lat lon h)) lat lon h) := by
  refine ⟨?_, adapter_roundtrip_eq_kernel s lat lon h, fun hk => ?_⟩
  · rw [adapter_roundtrip_eq_kernel, adapter_roundtrip_eq_kernel]
  · rw [adapter_roundtrip_eq_kernel]
    exact hk

/-- Witness for the C5 theorem at the origin point `(0, 0, 0)` under two
different adapter states (one initialized, one not): the kernel round trip
there is exact, hence within tolerance, and so is the adapter round trip. -/
theorem enu_roundtrip_origin_invariance_witness :
    closeGeo (ecefToGeodetic (geodeticToECEF 0 0 0)) 0 0 0 ∧
    closeGeo
      (((CoordinateAdapter.new idProj 0 0 0).initializeAdapter).enuToGeographic
        (((CoordinateAdapter.new idProj 0 0 0).initializeAdapter).geographicToENU
          0 0 0)) 0 0 0 := by
  have hk : closeGeo (ecefToGeodetic (geodeticToECEF 0 0 0)) 0 0 0 := by
    rw [kernel_roundtrip_zero]
    unfold closeGeo
    norm_num
  exact ⟨hk,
    (enu_roundtrip_origin_invariance
      ((CoordinateAdapter.new idProj 0 0 0).initializeAdapter)
      (CoordinateAdapter.new idProj 0 0 0) 0 0 0).2.2 hk⟩

/-- A concrete initialized adapter for the rebase counterexample: origin
`(0, 0, 0)`, reference system `scaleProj` (100 km per degree). -/
noncomputable def cexAdapter : CoordinateAdapter :=
  (CoordinateAdapter.new scaleProj 0 0 0).initializeAdapter

/-- A presenter holding one wrapped object, added through `addObject` under
the original origin (wrapper at CRS offset `(0, 0)`). -/
noncomputable def cexPresenter : MapPresenterModel :=
  (MapPresenterModel.mk (some cexAdapter) [] []).addObject
    (SceneObject.obj 7 []) none

/-- Claim C3 counterexample: after `updateOrigin(0, 1, 0)` (a rebase one
degree of longitude east, CRS delta 100 km), the single live wrapper still
wraps the same content, but the world position it assigns to the content's
local origin jumps from `(0, 0, 0)` to `(100000, 0, 0)` — the represented
location of previously-added content moves by the full CRS delta, far
outside any stated tolerance, so rebasing does move content. -/
theorem updateOrigin_moves_content_counterexample :
    cexPresenter.enuWrappers.map (fun w => w.worldPoint (0, 0, 0)) =
      [(0, 0, 0)] ∧
    (cexPresenter.updateOrigin 0 1 0).enuWrappers.map
        (fun w => w.worldPoint (0, 0, 0)) =
      [(100000, 0, 0)] ∧
    (cexPresenter.updateOrigin 0 1 0).enuWrappers.map
        (fun w => w.innerObject) =
      cexPresenter.enuWrappers.map (fun w => w.innerObject) := by
  refine ⟨?_, ?_, ?_⟩ <;>
    simp [cexPresenter, cexAdapter, MapPresenterModel.addObject,
      MapPresenterModel.updateOrigin, CoordinateAdapter.setOrigin,
      CoordinateAdapter.initializeAdapter, CoordinateAdapter.new,
      ENUGeometryWrapper.new, ENUGeometryWrapper.updateOrigin,
      ENUGeometryWrapper.worldPoint, effectiveIsENU, scaleProj]

/-- Claim C3 (amended): `updateOrigin(lat, lon, h)` with a configured
adapter rebases the adapter and repositions every live wrapper to the new
origin's projected-CRS offset, never reparenting or recreating the wrapped
content (same wrapped child object, same rotation); the world position a
wrapper assigns to unchanged wrapped content thereby shifts by exactly the
difference between the new and the old wrapper offset — rebasing moves
content that is not simultaneously re-expressed in the new tangent frame. -/
theorem updateOrigin_repositions_wrappers (p : MapPresenterModel)
    (a : CoordinateAdapter) (lat lon h : ℝ) :
    p.coordAdapter = some a →
    ((p.updateOrigin lat lon h).coordAdapter = some (a.setOrigin lat lon h) ∧
     (p.updateOrigin lat lon h).enuWrappers =
       p.enuWrappers.map
         (·.updateOrigin (a.setOrigin lat lon h).origin.crs)) ∧
    (∀ (w : ENUGeometryWrapper) (c : ℝ × ℝ),
      (w.updateOrigin c).innerObject = w.innerObject ∧
      (w.updateOrigin c).rotX = w.rotX ∧
      (w.updateOrigin c).pos = (c.1, c.2, 0) ∧
      ∀ q : ℝ × ℝ × ℝ,
        (w.updateOrigin c).worldPoint q =
          ((w.worldPoint q).1 + (c.1 - w.pos.1),
           (w.worldPoint q).2.1 + (c.2 - w.pos.2.1),
           (w.worldPoint q).2.2 + (0 - w.pos.2.2))) := by
  intro ha
  constructor
  · unfold MapPresenterModel.updateOrigin
    rw [ha]
    exact ⟨rfl, rfl⟩
  · intro w c
    refine ⟨rfl, rfl, rfl, fun q => ?_⟩
    unfold ENUGeometryWrapper.worldPoint ENUGeometryWrapper.updateOrigin
    refine Prod.ext ?_ (Prod.ext ?_ ?_) <;> simp

/-- Witness for the amended C3 theorem on the concrete presenter: the
wrapper list is remapped to the new offset and the wrapped child is
untouched. -/
theorem updateOrigin_repositions_wrappers_witness :
    (cexPresenter.updateOrigin 0 1 0).enuWrappers =
      cexPresenter.enuWrappers.map
        (·.updateOrigin ((cexAdapter.setOrigin 0 1 0).origin.crs)) ∧
    ((ENUGeometryWrapper.new (SceneObject.obj 7 []) (0, 0)).updateOrigin
        (5, 6)).innerObject = SceneObject.obj 7 [] :=
  ⟨(updateOrigin_repositions_wrappers cexPresenter cexAdapter 0 1 0
      rfl).1.2,
   ((updateOrigin_repositions_wrappers cexPresenter cexAdapter 0 1 0
      rfl).2 (ENUGeometryWrapper.new (SceneObject.obj 7 []) (0, 0))
      (5, 6)).1⟩

/-- Claim C4 counterexample: `setOrigin` is reachable before `initialize()`
(nothing guards it), and there it rebases the geographic and ECEF fields
while `origin.crs` keeps its stale constructor value `(0, 0)` instead of the
configured projection of the new point — the OriginFrame is left partially
updated, so the three representations are not mutually consistent. -/
theorem setOrigin_partial_update_counterexample :
    ((CoordinateAdapter.new idProj 0 0 0).setOrigin 10 20 3).origin.lat = 10 ∧
    ((CoordinateAdapter.new idProj 0 0 0).setOrigin 10 20 3).origin.ecef =
      geodeticToECEF 10 20 3 ∧
    ((CoordinateAdapter.new idProj 0 0 0).setOrigin 10 20 3).origin.crs =
      (0, 0) ∧
    ((CoordinateAdapter.new idProj 0 0 0).crsProjection.fwd 20 10 =
      ((20 : ℝ), (10 : ℝ))) ∧
    ((0 : ℝ), (0 : ℝ)) ≠ ((20 : ℝ), (10 : ℝ)) := by
  refine ⟨rfl, rfl, rfl, rfl, fun h => ?_⟩
  have h1 := congrArg Prod.fst h
  norm_num at h1

/-- Claim C4 (amended): once the adapter is initialized (proj4 loaded),
`setOrigin` atomically recomputes the whole OriginFrame — geographic fields,
`origin.ecef = geodeticToECEF(lat, lon, h)` and `origin.crs` equal to the
loaded projection of `(lon, lat)`; called before initialization it updates
the geographic and ECEF fields but leaves `origin.crs` at its previous
value. -/
theorem setOrigin_originframe_consistency (s : CoordinateAdapter)
    (lat lon h : ℝ) (P : Proj4) :
    (s.proj4 = some P →
      (s.setOrigin lat lon h).origin.lat = lat ∧
      (s.setOrigin lat lon h).origin.lon = lon ∧
      (s.setOrigin lat lon h).origin.h = h ∧
      (s.setOrigin lat lon h).origin.ecef = geodeticToECEF lat lon h ∧
      (s.setOrigin lat lon h).origin.crs = P.fwd lon lat) ∧
    (s.proj4 = none →
      (s.setOrigin lat lon h).origin.ecef = geodeticToECEF lat lon h ∧
      (s.setOrigin lat lon h).origin.crs = s.origin.crs) := by
  constructor
  · intro hP
    unfold CoordinateAdapter.setOrigin
    rw [hP]
    exact ⟨rfl, rfl, rfl, rfl, rfl⟩
  · intro hP
    unfold CoordinateAdapter.setOrigin
    rw [hP]
    exact ⟨rfl, rfl⟩

/-- Witness for the amended C4 theorem: an initialized adapter rebased to
`(lat 1, lon 2, h 3)` holds the projected CRS of the new point, and the
pre-initialization call keeps the stale CRS. -/
theorem setOrigin_originframe_consistency_witness :
    (((CoordinateAdapter.new idProj 0 0 0).initializeAdapter).setOrigin 1 2 3
      ).origin.crs = idProj.fwd 2 1 ∧
    ((CoordinateAdapter.new idProj 0 0 0).setOrigin 1 2 3).origin.crs =
      (CoordinateAdapter.new idProj 0 0 0).origin.crs :=
  ⟨((setOrigin_originframe_consistency
      ((CoordinateAdapter.new idProj 0 0 0).initializeAdapter) 1 2 3 idProj).1
      (by simp [CoordinateAdapter.initializeAdapter, CoordinateAdapter.new])).2.2.2.2,
   ((setOrigin_originframe_consistency
      (CoordinateAdapter.new idProj 0 0 0) 1 2 3 idProj).2 rfl).2⟩

end IWSDK
